import Mathlib

/-
Verification of the libcosimc Conan recipe (src/conanfile.py) against its
natural-language specification.  The recipe is shallowly embedded: the
declarative class attributes become Lean constants, and the recipe methods
(config_options, configure, build, package, package_info, _is_tests_enabled)
become pure functions over explicit state.
-/

namespace Libcosimc

/-- Conan settings of the recipe: `settings = "os", "compiler", "build_type", "arch"`
(conanfile.py line 23). -/
structure Settings where
  os : String
  compiler : String
  build_type : String
  arch : String

/-- The declared recipe options with their admissible values
(conanfile.py lines 24-27).  `fPIC = none` models the option having been
deleted (`del self.options.fPIC`). -/
structure DeclaredOptions where
  shared : List Bool
  fPIC : Option (List Bool)

/-- The class attribute `options = {"shared": [True, False], "fPIC": [True, False]}`
(conanfile.py lines 24-27). -/
def initial_options : DeclaredOptions :=
  { shared := [true, false], fPIC := some [true, false] }

/-- The class attribute `default_options = {"shared": True, "fPIC": True}`
(conanfile.py lines 28-31). -/
def default_options : List (String × Bool) :=
  [("shared", true), ("fPIC", true)]

/-- The names of the options currently exposed by the recipe. -/
def option_names (o : DeclaredOptions) : List String :=
  "shared" :: (match o.fPIC with
    | some _ => ["fPIC"]
    | none => [])

/-- `config_options` (conanfile.py lines 33-35): on Windows the fPIC option is
deleted, otherwise the declared options are left unchanged. -/
def config_options (s : Settings) (o : DeclaredOptions) : DeclaredOptions :=
  if s.os = "Windows" then { o with fPIC := none } else o

/-- The option-value state seen by `configure`: the recipe's own `shared`
value, its `fPIC` value (`none` when the option has been removed), and the
`shared` option value of every dependency package (the `self.options["*"]`
pattern), keyed by package name. -/
structure OptionValues where
  shared : Bool
  fPIC : Option Bool
  depShared : String → Bool

/-- `self.options.rm_safe("fPIC")`: removes the option, also a no-op when it
is already absent. -/
def rm_safe_fPIC (v : OptionValues) : OptionValues :=
  { v with fPIC := none }

/-- `configure` (conanfile.py lines 37-40): if `shared` is set, remove fPIC;
then set the `shared` option of every dependency to the recipe's own
`shared` value. -/
def configure (v : OptionValues) : OptionValues :=
  let v1 := if v.shared then rm_safe_fPIC v else v
  { v1 with depShared := fun _ => v1.shared }

/-- The class attribute `requires = ("libcosim/0.10.3@osp/stable",)`
(conanfile.py lines 47-49). -/
def requires : List String := ["libcosim/0.10.3@osp/stable"]

/-- The class attribute `tool_requires = ("cmake/[>=3.15]", "doxygen/[>=1.8]")`
(conanfile.py lines 43-46). -/
def tool_requires : List String := ["cmake/[>=3.15]", "doxygen/[>=1.8]"]

/-- A Conan requirement string is a version range exactly when it carries a
bracketed range expression such as `cmake/[>=3.15]`; an exact pin like
`libcosim/0.10.3@osp/stable` has no bracket. -/
def is_version_range (r : String) : Bool := r.data.contains '['

/-- Python's `str.lower()` as used by `_is_tests_enabled`, mapping every
character to its lowercase form. -/
def lower (s : String) : String := ⟨s.data.map Char.toLower⟩

/-- A process environment: maps a variable name to its value, `none` when the
variable is unset. -/
def Env : Type := String → Option String

/-- `_is_tests_enabled` (conanfile.py lines 86-87):
`os.getenv("LIBCOSIMC_RUN_TESTS_ON_CONAN_BUILD", "False").lower() in ("true", "1")`. -/
def is_tests_enabled (env : Env) : Bool :=
  decide (lower ((env "LIBCOSIMC_RUN_TESTS_ON_CONAN_BUILD").getD "False")
    ∈ (["true", "1"] : List String))

/-- The external tool invocations made by the recipe's build and package
methods, in source order: `cmake.configure()`, `cmake.build()`,
`cmake.build(target="doc")`, `cmake.test()`, `cmake.install()`,
`cmake.build(target="install-doc")`. -/
inductive Step where
  | cmakeConfigure
  | cmakeBuild
  | cmakeBuildDoc
  | cmakeTest
  | cmakeInstall
  | cmakeBuildInstallDoc
deriving DecidableEq, Repr

/-- `build` (conanfile.py lines 61-70) as the sequence of external tool
invocations it performs: configure, build, build the `doc` target, and, only
when `_is_tests_enabled()` holds, run the tests. -/
def build_steps (env : Env) : List Step :=
  [Step.cmakeConfigure, Step.cmakeBuild, Step.cmakeBuildDoc] ++
    (if is_tests_enabled env then [Step.cmakeTest] else [])

/-- `package` (conanfile.py lines 73-76) as the sequence of external tool
invocations it performs: install, then build the `install-doc` target. -/
def package_steps : List Step :=
  [Step.cmakeInstall, Step.cmakeBuildInstallDoc]

/-- The full build-and-package flow of a package creation: the `build` method
followed by the `package` method. -/
def create_flow (env : Env) : List Step :=
  build_steps env ++ package_steps

/-- Python exception semantics for the recipe's straight-line method bodies:
steps run in order; `fails s = some e` means the external tool invoked at
step `s` raises error `e`.  The result is the list of steps actually
invoked and, when a step failed, that step with its unmodified error.
The recipe contains no try/except, so the first failure aborts the rest. -/
def run_steps (fails : Step → Option String) : List Step → List Step × Option (Step × String)
  | [] => ([], none)
  | s :: rest =>
    match fails s with
    | some e => ([s], some (s, e))
    | none =>
      let r := run_steps fails rest
      (s :: r.1, r.2)

/-- The consumer-visible `cpp_info` state mutated by `package_info`. -/
structure CppInfo where
  libs : List String
  properties : List (String × String)
  builddirs : List String

/-- `self.cpp_info.set_property(name, value)`: sets the property, replacing
any earlier value for the same name. -/
def set_property (info : CppInfo) (k v : String) : CppInfo :=
  { info with properties := (k, v) :: info.properties.filter (fun p => p.1 != k) }

/-- `package_info` (conanfile.py lines 78-83): sets `libs = ["cosimc"]`, sets
the `cmake_find_mode` property to `"none"`, and appends `"."` to
`builddirs`. -/
def package_info (info : CppInfo) : CppInfo :=
  let i1 := { info with libs := ["cosimc"] }
  let i2 := set_property i1 "cmake_find_mode" "none"
  { i2 with builddirs := i2.builddirs ++ ["."] }

/-- The conditions the recipe branches on.  The last constructor is a
condition the specification mentions but that never occurs in the source. -/
inductive RecipeCond where
  | osIsWindows
  | sharedEnabled
  | testsEnvEnabled
  | buildTypeIsDebug
deriving DecidableEq

instance : Fintype RecipeCond :=
  ⟨⟨{RecipeCond.osIsWindows, RecipeCond.sharedEnabled,
     RecipeCond.testsEnvEnabled, RecipeCond.buildTypeIsDebug}, by decide⟩,
   fun c => by cases c <;> decide⟩

/-- The branch conditions actually present in conanfile.py: the
`self.settings.os == "Windows"` test (line 34), the `self.options.shared`
test (line 38), and the `self._is_tests_enabled()` test (line 66).  These
are the only `if` statements in the file. -/
def recipe_branch_conds : List RecipeCond :=
  [RecipeCond.osIsWindows, RecipeCond.sharedEnabled, RecipeCond.testsEnvEnabled]

/-- Modelled from the spec's words: the branching the specification claims,
namely "a debug-vs-release conditional, a platform check for the
position-independent-code option, and an optional feature flag". -/
def spec_claimed_conds : List RecipeCond :=
  [RecipeCond.buildTypeIsDebug, RecipeCond.osIsWindows, RecipeCond.testsEnvEnabled]

/-- A sample environment with the test toggle unset, used to exercise the
theorems on concrete inputs. -/
def env_unset : Env := fun _ => none

/-- A sample environment enabling the tests. -/
def env_true : Env := fun n =>
  if n = "LIBCOSIMC_RUN_TESTS_ON_CONAN_BUILD" then some "TRUE" else none

/-- A sample failure profile: the documentation build step raises. -/
def fails_doc : Step → Option String := fun s =>
  if s = Step.cmakeBuildDoc then some "doxygen failed" else none

/-- A sample option-value state with `shared` set. -/
def vals_shared : OptionValues :=
  { shared := true, fPIC := some true, depShared := fun _ => false }

/-- Helper: `run_steps` on any step list, when it reports a failure, reports
the failing step's own error, ran exactly the steps before the failure plus
the failing step itself, and invoked nothing after it. -/
theorem run_steps_fail_spec (fails : Step → Option String) :
    ∀ (l : List Step) (s : Step) (e : String),
      (run_steps fails l).2 = some (s, e) →
      fails s = some e ∧
      ∃ pre post, l = pre ++ s :: post ∧
        (run_steps fails l).1 = pre ++ [s] ∧
        ∀ t ∈ pre, fails t = none := by
  intro l
  induction l with
  | nil => intro s e h; simp [run_steps] at h
  | cons a rest ih =>
    intro s e h
    cases hfa : fails a with
    | some e' =>
      simp [run_steps, hfa] at h
      obtain ⟨hs, he⟩ := h
      subst hs; subst he
      exact ⟨hfa, [], rest, by simp [run_steps, hfa]⟩
    | none =>
      simp only [run_steps, hfa] at h
      obtain ⟨hfs, pre, post, hl, hran, hpre⟩ := ih s e h
      refine ⟨hfs, a :: pre, post, by simp [hl], ?_, ?_⟩
      · simp [run_steps, hfa, hran]
      · intro t ht
        rcases List.mem_cons.mp ht with h1 | h2
        · subst h1; exact hfa
        · exact hpre t h2

/-- Helper: the full build-and-package flow never repeats a step. -/
theorem create_flow_nodup (env : Env) : (create_flow env).Nodup := by
  by_cases h : is_tests_enabled env = true <;>
    simp [create_flow, build_steps, package_steps, h]

/-- C1: for every build invocation, the test runner (`cmake.test`) is invoked
during the build-and-package flow if and only if the environment variable
LIBCOSIMC_RUN_TESTS_ON_CONAN_BUILD is set to a true value. -/
theorem C1_tests_toggle (env : Env) :
    Step.cmakeTest ∈ create_flow env ↔ is_tests_enabled env = true := by
  by_cases h : is_tests_enabled env = true <;>
    simp [create_flow, build_steps, package_steps, h]

/-- C2: the build-and-package flow is the fixed sequence configure, build,
build documentation, optionally test, then the install phase (install
followed by the install-doc target); no other ordering is possible, and the
four unconditional named steps occur in exactly the claimed relative
order. -/
theorem C2_fixed_order (env : Env) :
    create_flow env =
      (if is_tests_enabled env = true then
        [Step.cmakeConfigure, Step.cmakeBuild, Step.cmakeBuildDoc,
         Step.cmakeTest, Step.cmakeInstall, Step.cmakeBuildInstallDoc]
      else
        [Step.cmakeConfigure, Step.cmakeBuild, Step.cmakeBuildDoc,
         Step.cmakeInstall, Step.cmakeBuildInstallDoc]) ∧
    List.Sublist
      [Step.cmakeConfigure, Step.cmakeBuild, Step.cmakeBuildDoc,
       Step.cmakeInstall]
      (create_flow env) := by
  by_cases h : is_tests_enabled env = true
  · have he : create_flow env =
        [Step.cmakeConfigure, Step.cmakeBuild, Step.cmakeBuildDoc,
         Step.cmakeTest, Step.cmakeInstall, Step.cmakeBuildInstallDoc] := by
      simp [create_flow, build_steps, package_steps, h]
    rw [he, if_pos h]
    exact ⟨rfl, by decide⟩
  · have he : create_flow env =
        [Step.cmakeConfigure, Step.cmakeBuild, Step.cmakeBuildDoc,
         Step.cmakeInstall, Step.cmakeBuildInstallDoc] := by
      simp [create_flow, build_steps, package_steps, h]
    rw [he, if_neg h]
    exact ⟨rfl, by decide⟩

/-- C3: the recipe exposes exactly the options shared and fPIC, each
admitting only the boolean values True and False, and fPIC is removed
exactly when the target operating system is Windows. -/
theorem C3_option_set :
    option_names initial_options = ["shared", "fPIC"] ∧
    initial_options.shared = [true, false] ∧
    initial_options.fPIC = some [true, false] ∧
    ∀ s : Settings,
      ((config_options s initial_options).fPIC = none ↔ s.os = "Windows") ∧
      option_names (config_options s initial_options) =
        (if s.os = "Windows" then ["shared"] else ["shared", "fPIC"]) := by
  refine ⟨rfl, rfl, rfl, ?_⟩
  intro s
  by_cases h : s.os = "Windows" <;>
    simp [config_options, option_names, initial_options, h]

/-- C4: the requires declaration is the single exact-version string
libcosim/0.10.3@osp/stable, which is not a version range. -/
theorem C4_exact_pin :
    requires = ["libcosim/0.10.3@osp/stable"] ∧
    requires.all (fun r => !(is_version_range r)) = true :=
  ⟨rfl, by decide⟩

/-- C5: package_info declares the libs list to be exactly the single-element
list containing cosimc. -/
theorem C5_single_lib (info : CppInfo) :
    (package_info info).libs = ["cosimc"] := rfl

/-- C6 counterexample: the recipe's branch conditions are not the set the
specification claims (debug-vs-release, Windows platform check, feature
flag): there is no debug-vs-release conditional in the source, and the
shared-option conditional of `configure` is missing from the claim. -/
theorem C6_counterexample :
    ¬ (∀ c : RecipeCond, c ∈ recipe_branch_conds ↔ c ∈ spec_claimed_conds) := by
  decide

/-- C6 amended: the only branching logic in the recipe consists of the
platform check (os == Windows) governing fPIC, the conditional on the
shared option, and the test-enable feature flag; in particular there is no
debug-vs-release conditional. -/
theorem C6_amended (c : RecipeCond) :
    c ∈ recipe_branch_conds ↔
      (c = RecipeCond.osIsWindows ∨ c = RecipeCond.sharedEnabled ∨
       c = RecipeCond.testsEnvEnabled) := by
  cases c <;> decide

/-- C7: when an external tool invocation fails, the recipe propagates the
step's own error unchanged, runs exactly the steps that precede the failing
one plus the failing step itself (so no step after the failure and no state
change after it), and never invokes any step twice (no retries). -/
theorem C7_error_propagation (env : Env) (fails : Step → Option String)
    (s : Step) (e : String)
    (h : (run_steps fails (create_flow env)).2 = some (s, e)) :
    fails s = some e ∧
    (∃ pre post, create_flow env = pre ++ s :: post ∧
      (run_steps fails (create_flow env)).1 = pre ++ [s] ∧
      ∀ t ∈ pre, fails t = none) ∧
    (run_steps fails (create_flow env)).1.Nodup := by
  obtain ⟨hfs, pre, post, hl, hran, hpre⟩ :=
    run_steps_fail_spec fails (create_flow env) s e h
  refine ⟨hfs, ⟨pre, post, hl, hran, hpre⟩, ?_⟩
  rw [hran]
  have hnd := create_flow_nodup env
  rw [hl] at hnd
  have hsub : List.Sublist (pre ++ [s]) (pre ++ s :: post) :=
    (List.append_sublist_append_left pre).mpr
      (List.Sublist.cons₂ s (List.nil_sublist post))
  exact List.Nodup.sublist hsub hnd

/-- C7 witness: with tests disabled and the documentation build failing,
the theorem applies at that concrete input. -/
theorem C7_error_propagation_witness :
    fails_doc Step.cmakeBuildDoc = some "doxygen failed" ∧
    (∃ pre post, create_flow env_unset = pre ++ Step.cmakeBuildDoc :: post ∧
      (run_steps fails_doc (create_flow env_unset)).1 =
        pre ++ [Step.cmakeBuildDoc] ∧
      ∀ t ∈ pre, fails_doc t = none) ∧
    (run_steps fails_doc (create_flow env_unset)).1.Nodup :=
  C7_error_propagation env_unset fails_doc Step.cmakeBuildDoc "doxygen failed"
    (by decide)

/-- C8: after configure, every dependency's shared option equals the
recipe's own shared option, and whenever shared is set the fPIC option has
been removed, regardless of the initial option values. -/
theorem C8_configure_invariant (v : OptionValues) (dep : String) :
    (configure v).depShared dep = (configure v).shared ∧
    ((configure v).shared = true → (configure v).fPIC = none) := by
  by_cases h : v.shared <;> simp [configure, rm_safe_fPIC, h]

/-- C8 witness: the theorem applied to a concrete shared build, where the
implication's hypothesis holds. -/
theorem C8_configure_invariant_witness :
    (configure vals_shared).depShared "libcosim" =
      (configure vals_shared).shared ∧
    (configure vals_shared).fPIC = none :=
  ⟨(C8_configure_invariant vals_shared "libcosim").1,
   (C8_configure_invariant vals_shared "libcosim").2 rfl⟩

/-- C9: tests are enabled exactly when the environment variable
LIBCOSIMC_RUN_TESTS_ON_CONAN_BUILD is set and its value, lowercased, is
exactly "true" or "1"; when unset or holding any other value they are
disabled. -/
theorem C9_tests_predicate (env : Env) :
    is_tests_enabled env = true ↔
      ∃ v, env "LIBCOSIMC_RUN_TESTS_ON_CONAN_BUILD" = some v ∧
        (lower v = "true" ∨ lower v = "1") := by
  unfold is_tests_enabled
  cases h : env "LIBCOSIMC_RUN_TESTS_ON_CONAN_BUILD" with
  | none =>
    simp only [h, Option.getD_none]
    have hf : decide ((lower "False") ∈ (["true", "1"] : List String))
        = false := by decide
    rw [hf]
    simp
  | some v =>
    simp [h, decide_eq_true_eq]

/-- C10: package_info sets the cmake_find_mode property to "none" and
appends "." to the builddirs list, for every incoming cpp_info state. -/
theorem C10_package_info (info : CppInfo) :
    (package_info info).properties.lookup "cmake_find_mode" = some "none" ∧
    (package_info info).builddirs = info.builddirs ++ ["."] := by
  refine ⟨?_, rfl⟩
  simp [package_info, set_property, List.lookup]

end Libcosimc
